import Mathlib

/-!
Shallow embedding of the doctor-service repository (src/app.py, src/models.py):
a FastAPI service storing doctor records in a relational table and computing
availability slots from fixed clinic hours.

Modelling choices:
* The doctor store is a `List Doctor` in insertion order (SQLAlchemy returns
  rows in insertion order for this append-only table; `first()` is `find?`).
* `datetime.date` values are `Date` triples; handlers receive the server's
  current date (`datetime.now().date()`) as an explicit `today` argument.
* Datetimes occurring in slot generation never leave the requested day
  (9:00 up to 18:30), so they are modelled as a `Date` plus minutes-of-day.
* `HTTPException(status, detail)` is `ApiError.http status detail`; the
  uncaught `ValueError` that `datetime.strptime` raises on an unparsable
  date (app.py line 107 has no try/except) is `ApiError.valueError`.
* `datetime.strptime(date, "%Y-%m-%d")` is modelled as a strict parser of
  the documented `YYYY-MM-DD` form (four digits, dash, two digits, dash,
  two digits, a valid Gregorian calendar date with year at least 1).
-/

namespace DoctorService

/-- A calendar date, as `datetime.date`: year, month, day. -/
structure Date where
  year : Nat
  month : Nat
  day : Nat
deriving DecidableEq, Repr

/-- Gregorian leap-year rule used by `datetime`. -/
def isLeapYear (y : Nat) : Bool :=
  (y % 4 == 0 && y % 100 != 0) || (y % 400 == 0)

/-- Days in a month, as `datetime` validates them. -/
def daysInMonth (y m : Nat) : Nat :=
  if m == 2 then (if isLeapYear y then 29 else 28)
  else if m == 4 || m == 6 || m == 9 || m == 11 then 30
  else 31

/-- A valid `datetime.date`: year in [1, 9999], month in [1, 12], day in range. -/
def Date.valid (d : Date) : Bool :=
  1 ≤ d.year && d.year ≤ 9999 && 1 ≤ d.month && d.month ≤ 12 &&
    1 ≤ d.day && d.day ≤ daysInMonth d.year d.month

/-- `datetime.date` comparison: lexicographic on (year, month, day). -/
def Date.lt (a b : Date) : Bool :=
  a.year < b.year ||
    (a.year == b.year && (a.month < b.month ||
      (a.month == b.month && a.day < b.day)))

/-- Numeric value of a list of decimal digit characters. -/
def digitsToNat (cs : List Char) : Nat :=
  cs.foldl (fun acc c => 10 * acc + (c.toNat - 48)) 0

/-- `datetime.strptime(date, "%Y-%m-%d").date()` (app.py line 107), as a
strict parser of the documented zero-padded `YYYY-MM-DD` format; `none`
models the `ValueError` raised on anything unparsable. -/
def parse_date (s : String) : Option Date :=
  match s.toList with
  | [y1, y2, y3, y4, s1, m1, m2, s2, d1, d2] =>
    if s1 = '-' ∧ s2 = '-' ∧ ([y1, y2, y3, y4, m1, m2, d1, d2]).all Char.isDigit then
      let d : Date := ⟨digitsToNat [y1, y2, y3, y4],
                       digitsToNat [m1, m2], digitsToNat [d1, d2]⟩
      if d.valid then some d else none
    else none
  | _ => none

/-- The two zero-padded decimal digits of `n` (strftime `%H`, `%M`, `%d`,
`%m`; every value formatted by the service is below 100). -/
def pad2 (n : Nat) : String :=
  ⟨[Nat.digitChar (n / 10), Nat.digitChar (n % 10)]⟩

/-- The four zero-padded decimal digits of `n` (strftime `%Y`; `datetime`
years are at most 9999). -/
def pad4 (n : Nat) : String :=
  ⟨[Nat.digitChar (n / 1000), Nat.digitChar (n / 100 % 10),
    Nat.digitChar (n / 10 % 10), Nat.digitChar (n % 10)]⟩

/-- strftime `%Y-%m-%d` for a date. -/
def strftime_date (d : Date) : String :=
  pad4 d.year ++ ("-" ++ pad2 d.month ++ "-" ++ pad2 d.day)

/-- strftime `%Y-%m-%dT%H:%M:%S` (app.py lines 155-156) for a datetime given
as a date plus minutes-of-day; the seconds field is always `00` because every
datetime in slot generation is a whole number of minutes. -/
def strftime_datetime (d : Date) (minutes : Nat) : String :=
  strftime_date d ++
    ("T" ++ pad2 (minutes / 60) ++ ":" ++ pad2 (minutes % 60) ++ ":00")

-- Clinic hours configuration (app.py lines 34-36)
def CLINIC_HOURS_START : Nat := 9
def CLINIC_HOURS_END : Nat := 18
def SLOT_DURATION_MINUTES : Nat := 30

/-- One availability slot, JSON object `{"start": ..., "end": ...}`
(models.py `SlotAvailability`); the field `stop` renders the JSON key
`"end"`, a reserved word in Lean. -/
structure Slot where
  start : String
  stop : String
deriving DecidableEq, Repr

/-- The `while current < end_time` loop of `generate_slots_for_date`
(app.py lines 151-158): emit a slot `[current, current + 30 min)` and
advance `current` to the slot end. `current` and `endt` are minutes-of-day. -/
def slotsLoop (d : Date) (current endt : Nat) : List Slot :=
  if current < endt then
    let slot_end := current + SLOT_DURATION_MINUTES
    { start := strftime_datetime d current,
      stop := strftime_datetime d slot_end } :: slotsLoop d slot_end endt
  else []
termination_by endt - current
decreasing_by simp [SLOT_DURATION_MINUTES]; omega

/-- `generate_slots_for_date(date)` (app.py lines 145-160): all slots from
`date` 09:00 to `date` 18:00 in 30-minute steps. -/
def generate_slots_for_date (date : Date) : List Slot :=
  slotsLoop date (CLINIC_HOURS_START * 60) (CLINIC_HOURS_END * 60)

/-- A persisted `Doctor` row (models.py lines 10-19).  `created_at` is an
abstract timestamp supplied by the database at insertion. -/
structure Doctor where
  doctor_id : Int
  name : String
  email : String
  phone : String
  department : String
  specialization : String
  created_at : Nat
deriving DecidableEq, Repr

/-- `DoctorCreate` request body (models.py lines 21-26). -/
structure DoctorCreate where
  name : String
  email : String
  phone : String
  department : String
  specialization : String
deriving DecidableEq, Repr

/-- How a request ends when it does not return 2xx: either an
`HTTPException(status, detail)` raised by a handler, or an exception the
handler lets propagate (the uncaught `ValueError` from `strptime`). -/
inductive ApiError where
  | http (status : Nat) (detail : String)
  | valueError
deriving DecidableEq, Repr

/-- `create_doctor` (app.py lines 42-57): reject a duplicate email with
HTTP 400, otherwise commit one new row carrying the database-generated id
and creation timestamp.  Returns the response together with the store after
the request (unchanged when the request fails, since nothing is added
before the email check raises). -/
def create_doctor (db : List Doctor) (doctor : DoctorCreate)
    (newId : Int) (now : Nat) : Except ApiError Doctor × List Doctor :=
  match db.find? (fun d => d.email == doctor.email) with
  | some _ => (.error (.http 400 "Doctor with this email already exists"), db)
  | none =>
    let db_doctor : Doctor :=
      { doctor_id := newId, name := doctor.name, email := doctor.email,
        phone := doctor.phone, department := doctor.department,
        specialization := doctor.specialization, created_at := now }
    (.ok db_doctor, db ++ [db_doctor])

/-- `if department:` / `if specialization:` (app.py lines 70-74): a filter
is applied only when the query parameter is present and non-empty (Python
truthiness makes both `None` and `""` skip the filter). -/
def applyFilter (field : Doctor → String) (value : Option String)
    (q : List Doctor) : List Doctor :=
  match value with
  | none => q
  | some s => if s == "" then q else q.filter (fun d => field d == s)

/-- `get_doctors` (app.py lines 59-80): filter by optional department and
specialization, count the matches, then page with offset `skip` and `limit`.
Returns `(page, total)`. -/
def get_doctors (db : List Doctor) (skip limit : Nat)
    (department specialization : Option String) : List Doctor × Nat :=
  let query := applyFilter Doctor.department department db
  let query := applyFilter Doctor.specialization specialization query
  let total := query.length
  ((query.drop skip).take limit, total)

/-- `get_doctor` (app.py lines 82-92): fetch by id or raise HTTP 404. -/
def get_doctor (db : List Doctor) (doctor_id : Int) : Except ApiError Doctor :=
  match db.find? (fun d => d.doctor_id == doctor_id) with
  | none => .error (.http 404 "Doctor not found")
  | some doctor => .ok doctor

/-- Response of `get_doctor_department` (app.py line 139). -/
structure DepartmentResponse where
  doctor_id : Int
  department : String
deriving DecidableEq, Repr

/-- `get_doctor_department` (app.py lines 131-139): department lookup by id
or HTTP 404. -/
def get_doctor_department (db : List Doctor) (doctor_id : Int) :
    Except ApiError DepartmentResponse :=
  match db.find? (fun d => d.doctor_id == doctor_id) with
  | none => .error (.http 404 "Doctor not found")
  | some doctor => .ok { doctor_id := doctor_id, department := doctor.department }

/-- The `clinic_hours` object of the availability response (app.py
line 127): f-strings over the configured hours. -/
structure ClinicHours where
  start : String
  stop : String
deriving DecidableEq, Repr

/-- Success body of `check_availability` (app.py lines 123-128). -/
structure AvailabilityResponse where
  doctor_id : Int
  date : String
  available_slots : List Slot
  clinic_hours : ClinicHours
deriving DecidableEq, Repr

/-- `check_availability` (app.py lines 94-129): resolve the doctor (404 if
absent), parse the date (`strptime` raises an uncaught `ValueError` if
unparsable), reject a date before `today` with HTTP 400, and otherwise
return every slot of the day.  `today` is `datetime.now().date()`. -/
def check_availability (db : List Doctor) (doctor_id : Int) (date : String)
    (today : Date) : Except ApiError AvailabilityResponse :=
  match db.find? (fun d => d.doctor_id == doctor_id) with
  | none => .error (.http 404 "Doctor not found")
  | some _doctor =>
    match parse_date date with
    | none => .error .valueError
    | some request_date =>
      if request_date.lt today then
        .error (.http 400 "Cannot book in the past")
      else
        .ok { doctor_id := doctor_id,
              date := date,
              available_slots := generate_slots_for_date request_date,
              clinic_hours :=
                { start := toString CLINIC_HOURS_START ++ ":00",
                  stop := toString CLINIC_HOURS_END ++ ":00" } }

/-- One client call to the service, with the request-independent inputs the
environment supplies (generated id and timestamp for a create, server date
for an availability check). -/
inductive Op where
  | create (doctor : DoctorCreate) (newId : Int) (now : Nat)
  | list (skip limit : Nat) (department specialization : Option String)
  | getById (doctor_id : Int)
  | getDepartment (doctor_id : Int)
  | checkAvail (doctor_id : Int) (date : String) (today : Date)
deriving Repr

/-- The store after one call: only `create_doctor` writes; every GET
handler leaves the table untouched. -/
def applyOp (db : List Doctor) : Op → List Doctor
  | .create doctor newId now => (create_doctor db doctor newId now).2
  | .list _ _ _ _ => db
  | .getById _ => db
  | .getDepartment _ => db
  | .checkAvail _ _ _ => db

/-- The store after a sequence of calls. -/
def runOps (db : List Doctor) (ops : List Op) : List Doctor :=
  ops.foldl applyOp db

/-- The store invariant: no two doctor rows share an email (the `unique`
constraint on `Doctor.email`, models.py line 14). -/
def EmailsUnique (db : List Doctor) : Prop :=
  (db.map Doctor.email).Nodup

instance : DecidablePred EmailsUnique := fun db =>
  inferInstanceAs (Decidable ((db.map Doctor.email).Nodup))

/-- Following the spec's words ("page of Doctors matching all supplied
filters (AND semantics); no filter supplied means no restriction on that
field"): a doctor matches when its department equals any supplied non-empty
department filter and its specialization equals any supplied non-empty
specialization filter. -/
def spec_matchesFilters (department specialization : Option String)
    (d : Doctor) : Bool :=
  (match department with
   | none => true
   | some s => if s == "" then true else d.department == s) &&
  (match specialization with
   | none => true
   | some s => if s == "" then true else d.specialization == s)

/-- A doctor row used to instantiate theorems with hypotheses. -/
def drSmith : Doctor :=
  { doctor_id := 1, name := "Alice Smith", email := "alice.smith@clinic.test",
    phone := "555-0100", department := "Cardiology",
    specialization := "Echocardiography", created_at := 17000 }

/-- A second doctor row, in another department. -/
def drJones : Doctor :=
  { doctor_id := 2, name := "Bob Jones", email := "bob.jones@clinic.test",
    phone := "555-0101", department := "Neurology",
    specialization := "Stroke care", created_at := 17050 }

/-- A create request reusing `drSmith`'s email. -/
def dupCreate : DoctorCreate :=
  { name := "Carol New", email := "alice.smith@clinic.test",
    phone := "555-0102", department := "Oncology",
    specialization := "Chemotherapy" }

/-- A create request with a fresh email. -/
def freshCreate : DoctorCreate :=
  { name := "Carol New", email := "carol.new@clinic.test",
    phone := "555-0102", department := "Oncology",
    specialization := "Chemotherapy" }

deriving instance DecidableEq for Except

/-! ### Helper lemmas -/

theorem pad2_digits (a b : Nat) (hb : b < 10) :
    (pad2 (10 * a + b)).data = [Nat.digitChar a, Nat.digitChar b] := by
  simp [pad2]
  exact ⟨by congr 1; omega, by congr 1; omega⟩

theorem pad4_digits (a b c d : Nat) (hb : b < 10) (hc : c < 10) (hd : d < 10) :
    (pad4 (1000 * a + 100 * b + 10 * c + d)).data =
      [Nat.digitChar a, Nat.digitChar b, Nat.digitChar c, Nat.digitChar d] := by
  simp [pad4]
  exact ⟨by congr 1; omega, by congr 1; omega, by congr 1; omega, by congr 1; omega⟩

theorem digitChar_sub48 : ∀ n, n < 58 → 48 ≤ n → Nat.digitChar (n - 48) = Char.ofNat n := by
  decide

theorem char_digit_roundtrip (c : Char) (h : c.isDigit) :
    Nat.digitChar (c.toNat - 48) = c := by
  simp only [Char.isDigit, ge_iff_le, Bool.and_eq_true, decide_eq_true_eq] at h
  obtain ⟨h1, h2⟩ := h
  have hb1 : (48 : Nat) ≤ c.toNat := h1
  have hb2 : c.toNat ≤ (57 : Nat) := h2
  rw [digitChar_sub48 c.toNat (by omega) hb1, Char.ofNat_toNat]

theorem digit_toNat_lt (c : Char) (h : c.isDigit) : c.toNat - 48 < 10 := by
  simp only [Char.isDigit, ge_iff_le, Bool.and_eq_true, decide_eq_true_eq] at h
  have hb2 : c.toNat ≤ (57 : Nat) := h.2
  omega

/-- A successfully parsed date renders back (via strftime `%Y-%m-%d`) to the
exact input string: `parse_date` only accepts the canonical zero-padded form. -/
theorem parse_date_roundtrip (s : String) (d : Date) (h : parse_date s = some d) :
    strftime_date d = s := by
  obtain ⟨cs⟩ := s
  unfold parse_date at h
  split at h
  case h_2 => exact absurd h (by simp)
  case h_1 y1 y2 y3 y4 s1 m1 m2 s2 d1 d2 heq =>
    have hcs : cs = [y1, y2, y3, y4, s1, m1, m2, s2, d1, d2] := heq
    subst hcs
    split at h
    case isFalse => exact absurd h (by simp)
    case isTrue hcond =>
      dsimp only at h
      split at h
      case isFalse => exact absurd h (by simp)
      case isTrue hvalid =>
        injection h with hde
        subst hde
        obtain ⟨hs1, hs2, hdig⟩ := hcond
        subst hs1; subst hs2
        simp only [List.all_cons, List.all_nil, Bool.and_eq_true,
          Bool.and_true] at hdig
        obtain ⟨hy1, hy2, hy3, hy4, hm1, hm2, hd1, hd2⟩ := hdig
        apply String.ext
        have hY : digitsToNat [y1, y2, y3, y4] =
            1000 * (y1.toNat - 48) + 100 * (y2.toNat - 48) +
              10 * (y3.toNat - 48) + (y4.toNat - 48) := by
          have b1 := digit_toNat_lt y1 hy1
          have b2 := digit_toNat_lt y2 hy2
          have b3 := digit_toNat_lt y3 hy3
          have b4 := digit_toNat_lt y4 hy4
          simp [digitsToNat, List.foldl]
          omega
        have hM : digitsToNat [m1, m2] = 10 * (m1.toNat - 48) + (m2.toNat - 48) := by
          simp [digitsToNat, List.foldl]
        have hD : digitsToNat [d1, d2] = 10 * (d1.toNat - 48) + (d2.toNat - 48) := by
          simp [digitsToNat, List.foldl]
        simp only [strftime_date, String.data_append, hY, hM, hD]
        rw [pad4_digits _ _ _ _ (digit_toNat_lt y2 hy2) (digit_toNat_lt y3 hy3)
              (digit_toNat_lt y4 hy4),
            pad2_digits _ _ (digit_toNat_lt m2 hm2),
            pad2_digits _ _ (digit_toNat_lt d2 hd2)]
        simp [char_digit_roundtrip y1 hy1, char_digit_roundtrip y2 hy2,
          char_digit_roundtrip y3 hy3, char_digit_roundtrip y4 hy4,
          char_digit_roundtrip m1 hm1, char_digit_roundtrip m2 hm2,
          char_digit_roundtrip d1 hd1, char_digit_roundtrip d2 hd2]

/-- Closed form of the slot loop: 18 half-hour slots starting at minute 540
(09:00) of the requested day. -/
theorem slots_closed_form (d : Date) : generate_slots_for_date d =
    (List.range 18).map (fun k =>
      ⟨strftime_datetime d (540 + 30 * k), strftime_datetime d (540 + 30 * k + 30)⟩) := by
  simp [generate_slots_for_date, CLINIC_HOURS_START, CLINIC_HOURS_END,
    slotsLoop, SLOT_DURATION_MINUTES, List.range_succ]

/-! ### Claim theorems -/

/-- C1: For every doctor present in the store and every date string parsing as
a valid non-past calendar date, `check_availability` with the default
configuration (open 9, close 18, slot duration 30 minutes) succeeds and
returns exactly 18 slots, the first `[date, "T09:00:00", date, "T09:30:00")`
and the last `[date, "T17:30:00", date, "T18:00:00")`.  The closed form
(slot `k` runs from minute `540 + 30k` to minute `540 + 30(k+1)` of the day,
for `k = 0..17`) shows the slots are in chronological order with no gaps or
overlaps; contiguity is also stated directly (`Chain'`: each slot's end
string equals the next slot's start string), and every slot's start, an exact
multiple of 30 minutes past opening, lies strictly below the closing hour. -/
theorem checkAvailability_default_returns_eighteen_contiguous_slots
    (db : List Doctor) (id : Int) (date : String) (today : Date)
    (doc : Doctor) (d : Date)
    (hdoc : db.find? (fun x => x.doctor_id == id) = some doc)
    (hparse : parse_date date = some d)
    (hpast : d.lt today = false) :
    check_availability db id date today =
      .ok { doctor_id := id, date := date,
            available_slots := generate_slots_for_date d,
            clinic_hours := { start := "9:00", stop := "18:00" } } ∧
    (generate_slots_for_date d).length = 18 ∧
    (generate_slots_for_date d).head? =
      some { start := date ++ "T09:00:00", stop := date ++ "T09:30:00" } ∧
    (generate_slots_for_date d).getLast? =
      some { start := date ++ "T17:30:00", stop := date ++ "T18:00:00" } ∧
    generate_slots_for_date d =
      (List.range 18).map (fun k =>
        { start := strftime_datetime d (540 + 30 * k),
          stop := strftime_datetime d (540 + 30 * k + 30) }) ∧
    List.Chain' (fun a b => a.stop = b.start) (generate_slots_for_date d) ∧
    (∀ s ∈ generate_slots_for_date d, ∃ k, k < 18 ∧
      s.start = strftime_datetime d (540 + 30 * k) ∧
      s.stop = strftime_datetime d (540 + 30 * k + 30) ∧
      540 + 30 * k < CLINIC_HOURS_END * 60) := by
  have hdate : strftime_date d = date := parse_date_roundtrip date d hparse
  refine ⟨?_, ?_, ?_, ?_, slots_closed_form d, ?_, ?_⟩
  · simp [check_availability, hdoc, hparse, hpast, CLINIC_HOURS_START, CLINIC_HOURS_END]
    exact ⟨by decide, by decide⟩
  · rw [slots_closed_form]; simp
  · rw [slots_closed_form, ← hdate]; rfl
  · rw [slots_closed_form, ← hdate]; rfl
  · rw [slots_closed_form]
    simp [List.range_succ, List.chain'_cons]
  · intro s hs
    rw [slots_closed_form] at hs
    simp only [List.mem_map, List.mem_range] at hs
    obtain ⟨k, hk, rfl⟩ := hs
    exact ⟨k, hk, rfl, rfl, by simp [CLINIC_HOURS_END]; omega⟩

/-- C1, instantiated: one doctor, date 2025-06-10, server date 2025-06-10. -/
theorem checkAvailability_default_returns_eighteen_contiguous_slots_witness :
    ([drSmith].find? (fun x => x.doctor_id == 1) = some drSmith) ∧
    parse_date "2025-06-10" = some ⟨2025, 6, 10⟩ ∧
    Date.lt ⟨2025, 6, 10⟩ ⟨2025, 6, 10⟩ = false ∧
    (check_availability [drSmith] 1 "2025-06-10" ⟨2025, 6, 10⟩ =
      .ok { doctor_id := 1, date := "2025-06-10",
            available_slots := generate_slots_for_date ⟨2025, 6, 10⟩,
            clinic_hours := { start := "9:00", stop := "18:00" } } ∧
    (generate_slots_for_date (⟨2025, 6, 10⟩ : Date)).length = 18 ∧
    (generate_slots_for_date (⟨2025, 6, 10⟩ : Date)).head? =
      some { start := "2025-06-10" ++ "T09:00:00", stop := "2025-06-10" ++ "T09:30:00" } ∧
    (generate_slots_for_date (⟨2025, 6, 10⟩ : Date)).getLast? =
      some { start := "2025-06-10" ++ "T17:30:00", stop := "2025-06-10" ++ "T18:00:00" } ∧
    generate_slots_for_date (⟨2025, 6, 10⟩ : Date) =
      (List.range 18).map (fun k =>
        { start := strftime_datetime ⟨2025, 6, 10⟩ (540 + 30 * k),
          stop := strftime_datetime ⟨2025, 6, 10⟩ (540 + 30 * k + 30) }) ∧
    List.Chain' (fun a b => a.stop = b.start)
      (generate_slots_for_date (⟨2025, 6, 10⟩ : Date)) ∧
    (∀ s ∈ generate_slots_for_date (⟨2025, 6, 10⟩ : Date), ∃ k, k < 18 ∧
      s.start = strftime_datetime ⟨2025, 6, 10⟩ (540 + 30 * k) ∧
      s.stop = strftime_datetime ⟨2025, 6, 10⟩ (540 + 30 * k + 30) ∧
      540 + 30 * k < CLINIC_HOURS_END * 60)) :=
  ⟨by decide, by decide, by decide,
   checkAvailability_default_returns_eighteen_contiguous_slots
     [drSmith] 1 "2025-06-10" ⟨2025, 6, 10⟩ drSmith ⟨2025, 6, 10⟩
     (by decide) (by decide) (by decide)⟩

/-- C2 counterexample: the claim says a past date fails with HTTP 400
"regardless of doctor validity", but the handler resolves the doctor first
(app.py line 101) and raises 404 before looking at the date.  With an empty
store, doctor id 1 and the past date 2020-01-01 (server date 2025-10-12),
the call fails with 404, not with the claimed 400. -/
theorem checkAvailability_past_date_404_before_400_counterexample :
    parse_date "2020-01-01" = some ⟨2020, 1, 1⟩ ∧
    Date.lt ⟨2020, 1, 1⟩ ⟨2025, 10, 12⟩ = true ∧
    ([] : List Doctor).find? (fun x => x.doctor_id == 1) = none ∧
    check_availability [] 1 "2020-01-01" ⟨2025, 10, 12⟩ =
      .error (.http 404 "Doctor not found") ∧
    check_availability [] 1 "2020-01-01" ⟨2025, 10, 12⟩ ≠
      .error (.http 400 "Cannot book in the past") := by
  refine ⟨by decide, by decide, by decide, by decide, by decide⟩

/-- C2 amended: for every doctor_id that resolves to a stored doctor and
every date string parsing as a date strictly before the server date,
`check_availability` fails with HTTP 400 "Cannot book in the past"; for a
doctor_id with no stored doctor the same request instead fails with
HTTP 404 (the doctor check runs before the date check). -/
theorem checkAvailability_past_date_rejected_for_existing_doctor
    (db : List Doctor) (id : Int) (date : String) (today : Date)
    (doc : Doctor) (d : Date)
    (hdoc : db.find? (fun x => x.doctor_id == id) = some doc)
    (hparse : parse_date date = some d)
    (hpast : d.lt today = true) :
    check_availability db id date today =
      .error (.http 400 "Cannot book in the past") ∧
    (∀ db2 : List Doctor, db2.find? (fun x => x.doctor_id == id) = none →
      check_availability db2 id date today =
        .error (.http 404 "Doctor not found")) := by
  constructor
  · simp [check_availability, hdoc, hparse, hpast]
  · intro db2 h2
    simp [check_availability, h2]

/-- C2 amended, instantiated: stored doctor 1, past date 2020-01-01,
server date 2025-10-12. -/
theorem checkAvailability_past_date_rejected_for_existing_doctor_witness :
    ([drSmith].find? (fun x => x.doctor_id == 1) = some drSmith) ∧
    parse_date "2020-01-01" = some ⟨2020, 1, 1⟩ ∧
    Date.lt ⟨2020, 1, 1⟩ ⟨2025, 10, 12⟩ = true ∧
    (check_availability [drSmith] 1 "2020-01-01" ⟨2025, 10, 12⟩ =
      .error (.http 400 "Cannot book in the past") ∧
    (∀ db2 : List Doctor, db2.find? (fun x => x.doctor_id == 1) = none →
      check_availability db2 1 "2020-01-01" ⟨2025, 10, 12⟩ =
        .error (.http 404 "Doctor not found"))) :=
  ⟨by decide, by decide, by decide,
   checkAvailability_past_date_rejected_for_existing_doctor
     [drSmith] 1 "2020-01-01" ⟨2025, 10, 12⟩ drSmith ⟨2020, 1, 1⟩
     (by decide) (by decide) (by decide)⟩

/-- C3: the spec maps an unparsable date to `InvalidInput` → HTTP 400, but
the handler calls `datetime.strptime` with no try/except (app.py line 107),
so the `ValueError` escapes the handler and no `HTTPException` of any status
is raised: for an existing doctor and the unparsable date "not-a-date" the
call ends in the uncaught exception (surfaced by the framework as an
internal server error), never as a distinct client-visible 400. -/
theorem checkAvailability_unparsable_date_uncaught_valueError :
    parse_date "not-a-date" = none ∧
    ([drSmith].find? (fun x => x.doctor_id == 1) = some drSmith) ∧
    check_availability [drSmith] 1 "not-a-date" ⟨2025, 10, 12⟩ =
      .error .valueError ∧
    (∀ status : Nat, ∀ detail : String,
      check_availability [drSmith] 1 "not-a-date" ⟨2025, 10, 12⟩ ≠
        .error (.http status detail)) := by
  have h3 : check_availability [drSmith] 1 "not-a-date" ⟨2025, 10, 12⟩ =
      .error .valueError := by decide
  refine ⟨by decide, by decide, h3, ?_⟩
  intro status detail h
  rw [h3] at h
  exact absurd h (by simp)

/-- Each optional filter of `get_doctors` is a `List.filter` by equality on
the corresponding field, skipped for `none` and for the empty string. -/
theorem applyFilter_eq_filter (field : Doctor → String) (v : Option String)
    (q : List Doctor) :
    applyFilter field v q = q.filter (fun d =>
      match v with
      | none => true
      | some s => if s == "" then true else field d == s) := by
  cases v with
  | none => simp [applyFilter]
  | some s =>
    by_cases hs : s = ""
    · subst hs; simp [applyFilter]
    · simp [applyFilter, hs]

/-- The two chained filters of `get_doctors` compute exactly the spec's
"matching all supplied filters" predicate over the insertion-ordered store. -/
theorem get_doctors_query_eq (db : List Doctor)
    (department specialization : Option String) :
    applyFilter Doctor.specialization specialization
        (applyFilter Doctor.department department db) =
      db.filter (spec_matchesFilters department specialization) := by
  rw [applyFilter_eq_filter, applyFilter_eq_filter, List.filter_filter]
  apply List.filter_congr
  intro d _
  cases department <;> cases specialization <;>
    simp [spec_matchesFilters, Bool.and_comm]

/-- Every doctor on a returned page matches all supplied filters. -/
theorem get_doctors_mem_matches (db : List Doctor) (skip limit : Nat)
    (department specialization : Option String) (d : Doctor)
    (hd : d ∈ (get_doctors db skip limit department specialization).1) :
    spec_matchesFilters department specialization d = true := by
  simp only [get_doctors, get_doctors_query_eq] at hd
  have hmem : d ∈ db.filter (spec_matchesFilters department specialization) :=
    ((List.take_sublist _ _).trans (List.drop_sublist _ _)).subset hd
  exact (List.mem_filter.mp hmem).2

/-- C4: for every store and valid pagination arguments, `get_doctors`
returns the page `take limit (drop skip ...)` of the insertion-ordered list
of doctors matching all supplied filters, together with the total count of
matching records; the page is a sublist of the store (insertion order
preserved), every returned doctor matches the filters, and the total is
independent of `skip` and `limit`. -/
theorem getDoctors_insertion_ordered_page_and_total
    (db : List Doctor) (skip limit : Nat)
    (department specialization : Option String)
    (hlim1 : 1 ≤ limit) (hlim2 : limit ≤ 100) :
    (get_doctors db skip limit department specialization).1 =
      ((db.filter (spec_matchesFilters department specialization)).drop skip).take limit ∧
    (get_doctors db skip limit department specialization).2 =
      (db.filter (spec_matchesFilters department specialization)).length ∧
    (get_doctors db skip limit department specialization).1.Sublist db ∧
    (∀ d ∈ (get_doctors db skip limit department specialization).1,
      spec_matchesFilters department specialization d = true) ∧
    (∀ skip2 limit2 : Nat,
      (get_doctors db skip2 limit2 department specialization).2 =
        (get_doctors db skip limit department specialization).2) := by
  have hq := get_doctors_query_eq db department specialization
  refine ⟨by simp [get_doctors, hq], by simp [get_doctors, hq], ?_,
    fun d hd => get_doctors_mem_matches db skip limit department specialization d hd,
    ?_⟩
  · simp only [get_doctors, hq]
    exact ((List.take_sublist _ _).trans (List.drop_sublist _ _)).trans
      (List.filter_sublist _)
  · intro skip2 limit2
    simp [get_doctors, hq]

/-- C4, instantiated: two doctors, department filter "Cardiology",
skip 0, limit 100. -/
theorem getDoctors_insertion_ordered_page_and_total_witness :
    (1 ≤ 100 ∧ (100 : Nat) ≤ 100) ∧
    ((get_doctors [drSmith, drJones] 0 100 (some "Cardiology") none).1 =
      (([drSmith, drJones].filter
        (spec_matchesFilters (some "Cardiology") none)).drop 0).take 100 ∧
    (get_doctors [drSmith, drJones] 0 100 (some "Cardiology") none).2 =
      ([drSmith, drJones].filter
        (spec_matchesFilters (some "Cardiology") none)).length ∧
    (get_doctors [drSmith, drJones] 0 100 (some "Cardiology") none).1.Sublist
      [drSmith, drJones] ∧
    (∀ d ∈ (get_doctors [drSmith, drJones] 0 100 (some "Cardiology") none).1,
      spec_matchesFilters (some "Cardiology") none d = true) ∧
    (∀ skip2 limit2 : Nat,
      (get_doctors [drSmith, drJones] skip2 limit2 (some "Cardiology") none).2 =
        (get_doctors [drSmith, drJones] 0 100 (some "Cardiology") none).2)) :=
  ⟨⟨by decide, by decide⟩,
   getDoctors_insertion_ordered_page_and_total [drSmith, drJones] 0 100
     (some "Cardiology") none (by decide) (by decide)⟩

/-- C7: `get_doctors` with department "Cardiology" returns only doctors
whose department equals exactly "Cardiology"; supplying a (non-empty)
specialization filter as well restricts the result to doctors satisfying
both equalities. -/
theorem listCardiology_filter_and_intersection
    (db : List Doctor) (skip limit : Nat) (specialization : Option String) :
    (∀ doc ∈ (get_doctors db skip limit (some "Cardiology") specialization).1,
      doc.department = "Cardiology") ∧
    (∀ s : String, s ≠ "" →
      ∀ doc ∈ (get_doctors db skip limit (some "Cardiology") (some s)).1,
        doc.department = "Cardiology" ∧ doc.specialization = s) := by
  constructor
  · intro doc hdoc
    have hm := get_doctors_mem_matches db skip limit (some "Cardiology")
      specialization doc hdoc
    simp [spec_matchesFilters] at hm
    exact hm.1
  · intro s hs doc hdoc
    have hm := get_doctors_mem_matches db skip limit (some "Cardiology")
      (some s) doc hdoc
    simp [spec_matchesFilters, hs] at hm
    exact hm

/-- C7, instantiated: two doctors, specialization "Echocardiography". -/
theorem listCardiology_filter_and_intersection_witness :
    (∀ doc ∈ (get_doctors [drSmith, drJones] 0 100 (some "Cardiology") none).1,
      doc.department = "Cardiology") ∧
    ("Echocardiography" ≠ "") ∧
    (∀ doc ∈ (get_doctors [drSmith, drJones] 0 100 (some "Cardiology")
        (some "Echocardiography")).1,
      doc.department = "Cardiology" ∧
        doc.specialization = "Echocardiography") :=
  ⟨(listCardiology_filter_and_intersection [drSmith, drJones] 0 100 none).1,
   by decide,
   (listCardiology_filter_and_intersection [drSmith, drJones] 0 100
     (some "Echocardiography")).2 "Echocardiography" (by decide)⟩

/-- C10: an empty-string filter places no restriction: `get_doctors` with
`department = some ""` (or `specialization = some ""`) returns exactly what
the call without that filter returns, because Python's `if department:` is
false for the empty string. -/
theorem listFilter_empty_string_means_no_restriction
    (db : List Doctor) (skip limit : Nat) (other : Option String) :
    get_doctors db skip limit (some "") other =
      get_doctors db skip limit none other ∧
    get_doctors db skip limit other (some "") =
      get_doctors db skip limit other none := by
  constructor <;> simp [get_doctors, applyFilter]

/-- C5: creating a doctor whose email equals the email of a stored doctor
fails with Conflict (HTTP 400) and leaves the store unchanged (same list of
rows, hence same row count); creating with a fresh email persists exactly
one new row at the end of the store, carrying the generated id, the
creation timestamp, and the submitted fields. -/
theorem createDoctor_conflict_unchanged_fresh_appends
    (db : List Doctor) (doctor : DoctorCreate) (newId : Int) (now : Nat) :
    ((∃ d0 ∈ db, d0.email = doctor.email) →
      create_doctor db doctor newId now =
        (.error (.http 400 "Doctor with this email already exists"), db)) ∧
    ((∀ d0 ∈ db, d0.email ≠ doctor.email) →
      ∃ newDoc : Doctor,
        create_doctor db doctor newId now = (.ok newDoc, db ++ [newDoc]) ∧
        newDoc.doctor_id = newId ∧ newDoc.created_at = now ∧
        newDoc.email = doctor.email ∧ newDoc.name = doctor.name ∧
        newDoc.phone = doctor.phone ∧ newDoc.department = doctor.department ∧
        newDoc.specialization = doctor.specialization ∧
        (db ++ [newDoc]).length = db.length + 1) := by
  constructor
  · rintro ⟨d0, hmem, he⟩
    cases hf : db.find? (fun d => d.email == doctor.email) with
    | none =>
      exact absurd (List.find?_eq_none.mp hf d0 hmem) (by simp [he])
    | some d1 => simp [create_doctor, hf]
  · intro hall
    have hf : db.find? (fun d => d.email == doctor.email) = none :=
      List.find?_eq_none.mpr (fun x hx => by simp [hall x hx])
    refine ⟨{ doctor_id := newId, name := doctor.name, email := doctor.email,
               phone := doctor.phone, department := doctor.department,
               specialization := doctor.specialization, created_at := now },
      by simp [create_doctor, hf], rfl, rfl, rfl, rfl, rfl, rfl, rfl, by simp⟩

/-- C5, instantiated: duplicate email rejected with the store unchanged,
fresh email appended as one new row. -/
theorem createDoctor_conflict_unchanged_fresh_appends_witness :
    (∃ d0 ∈ [drSmith], d0.email = dupCreate.email) ∧
    create_doctor [drSmith] dupCreate 2 17100 =
      (.error (.http 400 "Doctor with this email already exists"), [drSmith]) ∧
    (∀ d0 ∈ [drSmith], d0.email ≠ freshCreate.email) ∧
    (∃ newDoc : Doctor,
      create_doctor [drSmith] freshCreate 2 17100 =
        (.ok newDoc, [drSmith] ++ [newDoc]) ∧
      newDoc.doctor_id = 2 ∧ newDoc.created_at = 17100 ∧
      newDoc.email = freshCreate.email ∧ newDoc.name = freshCreate.name ∧
      newDoc.phone = freshCreate.phone ∧
      newDoc.department = freshCreate.department ∧
      newDoc.specialization = freshCreate.specialization ∧
      ([drSmith] ++ [newDoc]).length = [drSmith].length + 1) :=
  ⟨by decide,
   (createDoctor_conflict_unchanged_fresh_appends [drSmith] dupCreate 2 17100).1
     (by decide),
   by decide,
   (createDoctor_conflict_unchanged_fresh_appends [drSmith] freshCreate 2 17100).2
     (by decide)⟩

/-- `create_doctor` preserves email uniqueness: on conflict the store is
unchanged, and a fresh row is appended only when no stored row has its
email. -/
theorem create_doctor_preserves_emailsUnique
    (db : List Doctor) (doctor : DoctorCreate) (newId : Int) (now : Nat)
    (h : EmailsUnique db) :
    EmailsUnique (create_doctor db doctor newId now).2 := by
  unfold create_doctor
  cases hf : db.find? (fun d => d.email == doctor.email) with
  | some d0 => simpa using h
  | none =>
    have hno := List.find?_eq_none.mp hf
    simp only [EmailsUnique, List.map_append, List.map_cons, List.map_nil]
    rw [List.nodup_append]
    refine ⟨h, List.nodup_singleton _, ?_⟩
    intro a ha hb
    simp only [List.mem_singleton] at hb
    subst hb
    obtain ⟨d0, hd0, he⟩ := List.mem_map.mp ha
    exact absurd (by simp [he]) (hno d0 hd0)

/-- C6: the email-uniqueness invariant is preserved by every sequence of
service operations: only `create_doctor` writes the store, and it appends a
row only after `find?` has found no row with the same email. -/
theorem emailUniqueness_preserved_by_every_operation
    (ops : List Op) (db : List Doctor) (h : EmailsUnique db) :
    EmailsUnique (runOps db ops) := by
  induction ops generalizing db with
  | nil => simpa [runOps] using h
  | cons op rest ih =>
    have hstep : EmailsUnique (applyOp db op) := by
      cases op with
      | create doctor newId now =>
        exact create_doctor_preserves_emailsUnique db doctor newId now h
      | list skip limit dept spec => exact h
      | getById i => exact h
      | getDepartment i => exact h
      | checkAvail i s t => exact h
    simpa [runOps, List.foldl] using ih (applyOp db op) hstep

/-- C6, instantiated: a sequence with two successful creates, one duplicate
create and every read operation, starting from the empty store. -/
theorem emailUniqueness_preserved_by_every_operation_witness :
    EmailsUnique ([] : List Doctor) ∧
    EmailsUnique (runOps []
      [.create { name := "Alice Smith", email := "alice.smith@clinic.test",
                 phone := "555-0100", department := "Cardiology",
                 specialization := "Echocardiography" } 1 17000,
       .list 0 100 (some "Cardiology") none,
       .getById 1,
       .checkAvail 1 "2025-06-10" ⟨2025, 6, 10⟩,
       .create { name := "Duplicate Smith", email := "alice.smith@clinic.test",
                 phone := "555-0199", department := "Oncology",
                 specialization := "Radiation" } 2 17100,
       .create { name := "Bob Jones", email := "bob.jones@clinic.test",
                 phone := "555-0101", department := "Neurology",
                 specialization := "Stroke care" } 3 17200,
       .getDepartment 3]) :=
  ⟨by decide, emailUniqueness_preserved_by_every_operation _ [] (by decide)⟩

/-- C8: for an id with no stored doctor, both `get_doctor` and
`get_doctor_department` fail with HTTP 404 "Doctor not found" (no partial or
default record is returned); for an id resolving to a stored doctor,
`get_doctor_department` returns the doctor id paired with that doctor's
department string (and `get_doctor` the full record). -/
theorem getById_getDepartment_notFound_and_department
    (db : List Doctor) (id : Int) :
    ((∀ d0 ∈ db, d0.doctor_id ≠ id) →
      get_doctor db id = .error (.http 404 "Doctor not found") ∧
      get_doctor_department db id = .error (.http 404 "Doctor not found")) ∧
    (∀ doc : Doctor, db.find? (fun x => x.doctor_id == id) = some doc →
      get_doctor db id = .ok doc ∧
      get_doctor_department db id =
        .ok { doctor_id := id, department := doc.department }) := by
  constructor
  · intro hall
    have hf : db.find? (fun x => x.doctor_id == id) = none :=
      List.find?_eq_none.mpr (fun x hx => by simp [hall x hx])
    exact ⟨by simp [get_doctor, hf], by simp [get_doctor_department, hf]⟩
  · intro doc hf
    exact ⟨by simp [get_doctor, hf], by simp [get_doctor_department, hf]⟩

/-- C8, instantiated: id 7 is absent (both lookups 404), id 1 resolves to
the stored doctor. -/
theorem getById_getDepartment_notFound_and_department_witness :
    (∀ d0 ∈ [drSmith], d0.doctor_id ≠ 7) ∧
    (get_doctor [drSmith] 7 = .error (.http 404 "Doctor not found") ∧
     get_doctor_department [drSmith] 7 =
       .error (.http 404 "Doctor not found")) ∧
    ([drSmith].find? (fun x => x.doctor_id == 1) = some drSmith) ∧
    (get_doctor [drSmith] 1 = .ok drSmith ∧
     get_doctor_department [drSmith] 1 =
       .ok { doctor_id := 1, department := drSmith.department }) :=
  ⟨by decide,
   (getById_getDepartment_notFound_and_department [drSmith] 7).1 (by decide),
   by decide,
   (getById_getDepartment_notFound_and_department [drSmith] 1).2 drSmith
     (by decide)⟩

/-- C9: `check_availability` is deterministic (calling it twice with the
same arguments on the same store gives the same value — the embedding is a
pure function of its arguments, and no handler mutates the store), and the
slot list it computes does not depend on the stored data or the doctor id:
two calls on any two stores in which the requested doctors exist produce the
same `available_slots` outcome for the same date string and server date. -/
theorem checkAvailability_pure_function_of_date_and_config
    (db db2 : List Doctor) (id id2 : Int) (date : String) (today : Date)
    (doc doc2 : Doctor)
    (hdoc : db.find? (fun x => x.doctor_id == id) = some doc)
    (hdoc2 : db2.find? (fun x => x.doctor_id == id2) = some doc2) :
    check_availability db id date today = check_availability db id date today ∧
    Except.map AvailabilityResponse.available_slots
        (check_availability db id date today) =
      Except.map AvailabilityResponse.available_slots
        (check_availability db2 id2 date today) := by
  refine ⟨rfl, ?_⟩
  unfold check_availability
  rw [hdoc, hdoc2]
  cases hp : parse_date date with
  | none => rfl
  | some d =>
    by_cases hl : d.lt today <;> simp [hl, Except.map]

/-- C9, instantiated: two different stores and doctor ids, same date. -/
theorem checkAvailability_pure_function_of_date_and_config_witness :
    ([drSmith].find? (fun x => x.doctor_id == 1) = some drSmith) ∧
    ([drJones, drSmith].find? (fun x => x.doctor_id == 2) = some drJones) ∧
    (check_availability [drSmith] 1 "2025-06-10" ⟨2025, 6, 10⟩ =
      check_availability [drSmith] 1 "2025-06-10" ⟨2025, 6, 10⟩ ∧
    Except.map AvailabilityResponse.available_slots
        (check_availability [drSmith] 1 "2025-06-10" ⟨2025, 6, 10⟩) =
      Except.map AvailabilityResponse.available_slots
        (check_availability [drJones, drSmith] 2 "2025-06-10" ⟨2025, 6, 10⟩)) :=
  ⟨by decide, by decide,
   checkAvailability_pure_function_of_date_and_config
     [drSmith] [drJones, drSmith] 1 2 "2025-06-10" ⟨2025, 6, 10⟩
     drSmith drJones (by decide) (by decide)⟩

end DoctorService
